import Mathlib

/-!
Shallow embedding of the Rush-PH-Messenger scraper engine
(`src/scraper/playwright-rush-scraper.js`, plus the Puppeteer-era variant's
`getCacheInfo`/`_calculateMinutesAway`), together with theorems settling the
frozen claims about its specification.

Conventions of the embedding:
* JavaScript numbers that hold integer values are modelled as `Int`
  (with explicit 32-bit wraparound where the code relies on it, namely
  `_hashString`); counts and lengths are `Nat`.
* Wall-clock instants are `Int` milliseconds; where the code builds a Date
  on "today" from hours/minutes (`_calculateMinutesFromTime`) the embedding
  works with milliseconds since local midnight.
* `async` methods that cannot reject (every raised error is caught locally)
  are total functions; the one method that rethrows (`_initBrowser`) returns
  `Except`.
* The outcome of the live browser pipeline (launch, navigation, DOM state) is
  an explicit environment parameter `ExtractEnv`, since it is input from the
  outside world; everything the code computes from that outcome is embedded.
-/

namespace RushScraper

/-- JS `ToInt32` coercion: the effect of `x | 0` / `x & x` on an integer. -/
def toInt32 (n : Int) : Int :=
  let m := n % 4294967296
  if m < 2147483648 then m else m - 4294967296

/-- One step of `_hashString`'s loop:
`hash = ((hash << 5) - hash) + char; hash = hash & hash`.
`hash << 5` wraps to int32, so does the final `& `-coercion. -/
def hashStep (h : Int) (c : Nat) : Int :=
  toInt32 (toInt32 (h * 32) - h + c)

/-- Embedding of `_hashString`: fold `hashStep` over the UTF-16 code units, then `Math.abs`.
The stations and lines in play are ASCII, for which `Char.toNat` is the
UTF-16 code unit. -/
def hashString (s : String) : Nat :=
  (s.data.foldl (fun h c => hashStep h c.toNat) 0).natAbs

/-- JS `String.prototype.toLowerCase` restricted to the ASCII station names
this system handles: lower-case every character. -/
def jsToLower (s : String) : String :=
  ⟨s.data.map Char.toLower⟩

/-- Embedding of `_getCacheKey`: `` `${origin.toLowerCase()}_${destination.toLowerCase()}` ``.
Note: the code lower-cases but does not trim. -/
def getCacheKey (origin destination : String) : String :=
  jsToLower origin ++ "_" ++ jsToLower destination

/-- Embedding of `_isCacheValid`: `Date.now() - timestamp.getTime() < cacheDuration * 1000`.
`cacheDuration` is in seconds, instants in milliseconds. -/
def isCacheValid (cacheDuration : Int) (now timestamp : Int) : Bool :=
  now - timestamp < cacheDuration * 1000

/-- One scheduled departure (`TrainTime`). -/
structure TrainTime where
  time : String
  minutesAway : Int
  status : String
deriving DecidableEq, Repr

/-- The record returned to callers (`ScheduleRecord`).  `lastUpdated` is the
instant (epoch ms) whose ISO rendering the code stores; `source` is `none`
where the JS object has no such key (the simulated record). -/
structure ScheduleRecord where
  line : String
  origin : String
  destination : String
  nextTrains : List TrainTime
  estimatedTravelTime : Int
  lastUpdated : Int
  status : String
  simulated : Bool
  source : Option String
deriving DecidableEq, Repr

/-- A cache entry: `{ data, timestamp }` with `timestamp` in epoch ms. -/
structure CacheEntry where
  data : ScheduleRecord
  timestamp : Int
deriving DecidableEq, Repr

/-- The `Map` cache, as an association list in insertion order. -/
abbrev Cache := List (String × CacheEntry)

/-- A `Map.prototype.get`-style lookup. -/
def cacheLookup (c : Cache) (key : String) : Option CacheEntry :=
  (c.find? (fun p => p.1 = key)).map (·.2)

/-- Embedding of `Map.prototype.set`: replace in place if the key exists, else append. -/
def cacheSet (c : Cache) (key : String) (e : CacheEntry) : Cache :=
  if c.any (fun p => p.1 = key) then
    c.map (fun p => if p.1 = key then (key, e) else p)
  else
    c ++ [(key, e)]

/-- The cache read performed at the top of `scrapeTrainSchedule`: a hit only
when the key is present and its entry is still valid; an expired entry is
skipped (not evicted). -/
def cacheGet (cacheDuration : Int) (c : Cache) (key : String) (now : Int) :
    Option ScheduleRecord :=
  match cacheLookup c key with
  | some e => if isCacheValid cacheDuration now e.timestamp then some e.data else none
  | none => none

/-- Zero-pad a two-digit number, as `toLocaleTimeString`'s `'2-digit'` does. -/
def pad2 (n : Int) : String :=
  if n < 10 then "0" ++ toString n else toString n

/-- Render an epoch instant as the `HH:MM` wall-clock string
(`toLocaleTimeString('en-US', { hour: '2-digit', minute: '2-digit',
hour12: false })`), with the timezone offset folded into the instant. -/
def formatHM (ms : Int) : String :=
  let minutes := (ms.fdiv 60000) % 1440
  pad2 (minutes.fdiv 60) ++ ":" ++ pad2 (minutes % 60)

/-- Embedding of `_simulateTrainData`'s train-time loop: for `i = 0..4`,
`minutesAhead = intervals.slice(0, i+1).reduce(+)` with
`intervals = [3,5,7,8,10]`, a train at `now + minutesAhead*60000`, status
`On Time` if `minutesAhead <= 15`, `Delayed` if `> 20`, else `On Time`. -/
def simulateTrainTimes (now : Int) : List TrainTime :=
  (List.range 5).map (fun i =>
    let minutesAhead : Int := ((([3, 5, 7, 8, 10] : List Int).take (i + 1)).foldl (· + ·) 0)
    { time := formatHM (now + minutesAhead * 60000)
      minutesAway := minutesAhead
      status := if minutesAhead ≤ 15 then "On Time"
                else if minutesAhead > 20 then "Delayed" else "On Time" })

/-- The quantity `stationCount = Math.abs(hashString(origin) % 10) + 2` as used by the
simulation and by `_estimateTravelTime`. -/
def stationCount (origin : String) : Nat :=
  hashString origin % 10 + 2

/-- Embedding of `_simulateTrainData`: the deterministic fallback record. -/
def simulateTrainData (origin destination line : String) (now : Int) :
    ScheduleRecord :=
  { line := line
    origin := origin
    destination := destination
    nextTrains := simulateTrainTimes now
    estimatedTravelTime := 3 * (stationCount origin : Int)
    lastUpdated := now
    status := "operational"
    simulated := true
    source := none }

/-- Embedding of `_estimateTravelTime` (playwright variant):
`Math.max(5, (Math.abs(hash(origin) % 10) + 2) * 3)`. -/
def estimateTravelTime (origin _destination : String) : Int :=
  max 5 ((stationCount origin : Int) * 3)

/-- JS `parseInt` on the digit-run tokens produced by the time regexes:
the maximal leading run of decimal digits, `none` when there is none
(`parseInt` would give `NaN`). -/
def parseIntNat (s : String) : Option Nat :=
  let digits := s.data.takeWhile Char.isDigit
  if digits.isEmpty then none
  else some (digits.foldl (fun n c => 10 * n + (c.toNat - 48)) 0)

/-- JS `String.prototype.split` on a single-character class: split at every
separator character, keeping empty segments (`"".split` is `[""]`,
`":".split` is `["",""]`). -/
def splitChars (p : Char → Bool) : List Char → List (List Char)
  | [] => [[]]
  | c :: cs =>
    let rest := splitChars p cs
    if p c then [] :: rest
    else
      match rest with
      | [] => [[c]]
      | h :: t => (c :: h) :: t

/-- Embedding of `cleanTime.split(/[:.]/)`: split the token at every `:` or `.`. -/
def splitTimeParts (s : String) : List String :=
  (splitChars (fun c => c = ':' || c = '.') s.data).map (fun cs => (⟨cs⟩ : String))

/-- The hour/minute components the validator reads:
`timeParts.length === 2`, `parseInt` on each part. -/
def timeComponents (s : String) : Option (Nat × Nat) :=
  match splitTimeParts s with
  | [a, b] =>
    match parseIntNat a, parseIntNat b with
    | some h, some m => some (h, m)
    | _, _ => none
  | _ => none

/-- The time-token validator inside `_extractTrainDataFromPage`:
split on `[:.]`, require exactly two parts, and
`hours >= 0 && hours <= 23 && minutes >= 0 && minutes <= 59`. -/
def isValidTime (s : String) : Bool :=
  match timeComponents s with
  | some (h, m) => h ≤ 23 && m ≤ 59
  | none => false

/-- The capture group of the time regexes
(`/(\d{1,2}:\d{2})\s*(AM|PM)?/`, `/(\d{1,2}:\d{2})/`, `/(\d{1,2}\.\d{2})/`)
applied to a matched token: the leading `digits (: or .) digits` prefix,
which strips a trailing `AM`/`PM` marker. -/
def captureTime (s : String) : String :=
  let cs := s.data
  let hd := cs.takeWhile Char.isDigit
  let rest := cs.drop hd.length
  match rest with
  | c :: rest' =>
    if c = ':' ∨ c = '.' then
      ⟨hd ++ [c] ++ rest'.takeWhile Char.isDigit⟩
    else ⟨hd⟩
  | [] => ⟨hd⟩

/-- One regex-matched text token of the DOM pass, with the features the
surrounding-element scan reads from it: whether the parent text contains
`delay` / `cancel`, and the `(\d+)\s*min` match if any. -/
structure RawToken where
  text : String
  delayHint : Bool
  cancelHint : Bool
  minHint : Option Int
deriving DecidableEq, Repr

/-- Status inferred from the surrounding text: start at `On Time`, overwrite
with `Delayed` on a `delay` hit, then with `Cancelled` on a `cancel` hit. -/
def tokenStatus (tok : RawToken) : String :=
  if tok.cancelHint then "Cancelled"
  else if tok.delayHint then "Delayed"
  else "On Time"

/-- The `TrainTime` pushed for an accepted token inside `page.evaluate`:
`minutesAway: minutesAway || 0` (the `min`-regex value or `0`). -/
def tokenTrain (tok : RawToken) : TrainTime :=
  { time := captureTime tok.text
    minutesAway := tok.minHint.getD 0
    status := tokenStatus tok }

/-- The per-token accumulation loop of `_extractTrainDataFromPage`'s
`page.evaluate`: for each matched token take the capture (`cleanTime`); if
it is non-empty and not yet in `processedTimes`, validate it; only a valid
token is added to `processedTimes` and pushed.  The emitted list is in
first-occurrence order; no sorting happens anywhere. -/
def collectTrains (tokens : List RawToken) : List TrainTime :=
  (tokens.foldl
    (fun (acc : List TrainTime × List String) tok =>
      let cleanTime := captureTime tok.text
      if cleanTime ≠ "" ∧ cleanTime ∉ acc.2 then
        if isValidTime cleanTime then
          (acc.1 ++ [tokenTrain tok], acc.2 ++ [cleanTime])
        else acc
      else acc)
    ([], [])).1

/-- The post-loop normalization
`trainTimes.filter((t,i,self) => i === self.findIndex(u => u.time === t.time))
.slice(0, 10)`: keep the first occurrence of each literal `time` string, cap
at 10.  (Despite the adjacent comment "Remove duplicates and sort by time",
the code never sorts.) -/
def dedupCap (trains : List TrainTime) : List TrainTime :=
  (trains.foldl
    (fun (acc : List TrainTime) t =>
      if acc.any (fun u => u.time = t.time) then acc else acc ++ [t]) []).take 10

/-- The `uniqueTimes` value a successful DOM extraction emits, projected to
its literal time strings (the level at which dedup/order are specified). -/
def extractUniqueTimes (tokens : List String) : List String :=
  (dedupCap (collectTrains (tokens.map (fun t => ⟨t, false, false, none⟩)))).map (·.time)

/-- An `HH:MM` string read as minutes after midnight, for stating chronological order. -/
def timeInMinutes (s : String) : Nat :=
  match timeComponents s with
  | some (h, m) => 60 * h + m
  | none => 0

/-- Chronologically ascending by wall-clock time. -/
def chronoSorted (ts : List String) : Prop :=
  ts.Sorted (fun a b => timeInMinutes a ≤ timeInMinutes b)

instance (ts : List String) : Decidable (chronoSorted ts) := by
  unfold chronoSorted; infer_instance

/-- Embedding of `_calculateMinutesFromTime` without the final `Math.max(0, ·)`:
build today's instant at `hours:minutes:00.000`, roll it to tomorrow if it
is strictly before now, and take the floored minute difference.  `nowOfDay`
is "now" as milliseconds since local midnight. -/
def calcMinutesRolled (h m nowOfDay : Int) : Int :=
  let target := (h * 60 + m) * 60000
  let target := if target < nowOfDay then target + 86400000 else target
  (target - nowOfDay).fdiv 60000

/-- Embedding of `_calculateMinutesFromTime` (playwright variant): the rolled difference
clamped by `Math.max(0, ·)`. -/
def calcMinutesFromTime (h m nowOfDay : Int) : Int :=
  max 0 (calcMinutesRolled h m nowOfDay)

/-- JS `Math.round` on a rational `a / b` with `b > 0`:
`floor(a/b + 1/2) = floor((2a + b) / (2b))`. -/
def jsRoundDiv (a b : Int) : Int :=
  (2 * a + b).fdiv (2 * b)

/-- The per-train computation of the Puppeteer variant's
`_calculateMinutesAway`: same rollover, but `Math.round` of the minute
difference, then `Math.max(0, ·)`. -/
def calcMinutesAwayRounded (h m nowOfDay : Int) : Int :=
  let target := (h * 60 + m) * 60000
  let target := if target < nowOfDay then target + 86400000 else target
  max 0 (jsRoundDiv (target - nowOfDay) 60000)

/-- The post-`evaluate` fill of `_extractTrainDataFromPage`: a train whose
`minutesAway` is `0` (or absent) gets `_calculateMinutesFromTime(train.time)`.
The code splits the time on `:` and applies `Number`; the embedding covers the
`HH:MM` shapes the validator admits (on a `H.MM`-shaped time the code
produces an unusable `NaN`, which no claim exercises). -/
def fillMinutes (nowOfDay : Int) (t : TrainTime) : TrainTime :=
  if t.minutesAway = 0 then
    let parts := (splitChars (fun c => c = ':') t.time.data).map
      (fun cs => (⟨cs⟩ : String))
    { t with minutesAway :=
        match parts with
        | [a, b] =>
          match parseIntNat a, parseIntNat b with
          | some h, some m => calcMinutesFromTime h m nowOfDay
          | _, _ => 0
        | _ => 0 }
  else t

/-- An opaque Playwright browser handle. -/
structure Browser where
  id : Nat
deriving DecidableEq, Repr

/-- The scraper's persistent state: constructor options, the `Map` cache, and
the shared browser reference (`null` modelled as `none`). -/
structure ScraperState where
  cacheDuration : Int
  useBrowserScraper : Bool
  cache : Cache
  browser : Option Browser
deriving DecidableEq, Repr

/-- The state right after the constructor runs with cache duration `cd` and
browser toggle `useB`. -/
def initialState (cd : Int) (useB : Bool) : ScraperState :=
  { cacheDuration := cd, useBrowserScraper := useB, cache := [], browser := none }

/-- Outside-world outcome of one live-extraction attempt: what
`browserEngine.launch` does, and — when a browser is available — what the
navigation / line-click / station-search / `page.evaluate` pipeline yields.
`Except.error` in `domTokens` covers a navigation or interaction failure
(thrown, caught at the end of `_attemptDataExtraction`); `Except.ok` carries
the regex-matched tokens the DOM pass sees (possibly none, and a failed
station search is the same as a token-less page: the attempt returns null). -/
structure ExtractEnv where
  launch : Except Unit Browser
  domTokens : Except Unit (List RawToken)
deriving Repr

/-- Embedding of `_initBrowser`: return the existing browser if set; otherwise launch.
On launch failure the browser reference is set to `null` and the error is
rethrown to the caller. -/
def initBrowser (st : ScraperState) (launch : Except Unit Browser) :
    Except Unit Browser × ScraperState :=
  match st.browser with
  | some b => (Except.ok b, st)
  | none =>
    match launch with
    | Except.ok b => (Except.ok b, { st with browser := some b })
    | Except.error e => (Except.error e, { st with browser := none })

/-- The record `_extractTrainDataFromPage` returns: `null` when the evaluate
pass pushed no train, else the deduplicated, capped trains with
`minutesAway` filled in, `estimatedTravelTime` from `_estimateTravelTime`,
`lastUpdated`, `status: 'operational'`, `simulated: false`, and the
`playwright-extraction` source tag. -/
def extractTrainDataFromPage (tokens : List RawToken)
    (origin destination line : String) (now nowOfDay : Int) :
    Option ScheduleRecord :=
  let trainTimes := collectTrains tokens
  if trainTimes.isEmpty then none
  else
    some
      { line := line
        origin := origin
        destination := destination
        nextTrains := (dedupCap trainTimes).map (fillMinutes nowOfDay)
        estimatedTravelTime := estimateTravelTime origin destination
        lastUpdated := now
        status := "operational"
        simulated := false
        source := some "playwright-extraction" }

/-- Embedding of `_attemptDataExtraction`: immediately `null` when the browser toggle is
off; otherwise acquire a browser and run the pipeline.  Every error raised
inside the attempt — launch failure rethrown by `_initBrowser` included — is
caught by the attempt's own `catch`, which returns `null`; so the attempt is
a total function into `Option`. -/
def attemptDataExtraction (st : ScraperState) (env : ExtractEnv)
    (origin destination line : String) (now nowOfDay : Int) :
    Option ScheduleRecord × ScraperState :=
  if !st.useBrowserScraper then (none, st)
  else
    match initBrowser st env.launch with
    | (Except.error _, st') => (none, st')
    | (Except.ok _, st') =>
      match env.domTokens with
      | Except.error _ => (none, st')
      | Except.ok tokens =>
        (extractTrainDataFromPage tokens origin destination line now nowOfDay, st')

/-- Embedding of `scrapeTrainSchedule`: serve a valid cache entry; otherwise attempt live
extraction, and on a `null` (or caught-error) outcome fall back to
`_simulateTrainData`; either fresh record is written to the cache under the
normalized key before being returned. -/
def scrapeTrainSchedule (st : ScraperState) (origin destination line : String)
    (now nowOfDay : Int) (env : ExtractEnv) : ScheduleRecord × ScraperState :=
  let cacheKey := getCacheKey origin destination
  match cacheGet st.cacheDuration st.cache cacheKey now with
  | some data => (data, st)
  | none =>
    let (response, st') := attemptDataExtraction st env origin destination line now nowOfDay
    match response with
    | some r => (r, { st' with cache := cacheSet st'.cache cacheKey ⟨r, now⟩ })
    | none =>
      let simulatedData := simulateTrainData origin destination line now
      (simulatedData, { st' with cache := cacheSet st'.cache cacheKey ⟨simulatedData, now⟩ })

/-- One row of `getCacheInfo().entries`. -/
structure CacheInfoEntry where
  key : String
  timestamp : Int
  valid : Bool
  simulated : Bool
deriving DecidableEq, Repr

/-- The value of `getCacheInfo()`. -/
structure CacheInfo where
  totalEntries : Nat
  cacheDuration : Int
  entries : List CacheInfoEntry
deriving DecidableEq, Repr

/-- Embedding of `getCacheInfo`: entry count, configured duration, and per-entry validity
computed at read time. -/
def getCacheInfo (st : ScraperState) (now : Int) : CacheInfo :=
  { totalEntries := st.cache.length
    cacheDuration := st.cacheDuration
    entries := st.cache.map (fun p =>
      { key := p.1
        timestamp := p.2.timestamp
        valid := isCacheValid st.cacheDuration now p.2.timestamp
        simulated := p.2.data.simulated }) }

/-- Embedding of `_closeBrowser`: close the browser if one is set; a close error is
swallowed and the `finally` clears the reference either way, so the state
effect is simply `browser := null`. -/
def closeBrowser (st : ScraperState) : ScraperState :=
  { st with browser := none }

/-- Embedding of `cleanup`: `_closeBrowser` then `cache.clear()`. -/
def cleanup (st : ScraperState) : ScraperState :=
  { closeBrowser st with cache := [] }

/-! ### Helper lemmas about the cache -/

/-- A `Map.set` makes the written entry the one a subsequent lookup of the
same key sees. -/
theorem cacheLookup_cacheSet_self (c : Cache) (k : String) (e : CacheEntry) :
    cacheLookup (cacheSet c k e) k = some e := by
  unfold cacheSet
  split_ifs with hk
  · induction c with
    | nil => simp at hk
    | cons p t ih =>
      simp only [List.any_cons, Bool.or_eq_true, decide_eq_true_eq] at hk
      by_cases hp : p.1 = k
      · simp [cacheLookup, List.find?, hp]
      · have ht : t.any (fun p => decide (p.1 = k)) = true := by
          rcases hk with h | h
          · exact absurd h hp
          · simpa using h
        have := ih (by simpa using ht)
        simpa [cacheLookup, List.find?, hp] using this
  · induction c with
    | nil => simp [cacheLookup, List.find?]
    | cons p t ih =>
      simp only [List.any_cons, Bool.or_eq_true, decide_eq_true_eq, not_or] at hk
      have := ih (by simp [hk.2])
      simpa [cacheLookup, List.find?, hk.1] using this

/-- Immediately after a `Map.set`, the entry is valid (provided the
configured duration is positive) and a cache read returns the written
record. -/
theorem cacheGet_cacheSet_self (c : Cache) (k : String) (r : ScheduleRecord)
    (cd now : Int) (hcd : 0 < cd) :
    cacheGet cd (cacheSet c k ⟨r, now⟩) k now = some r := by
  unfold cacheGet
  rw [cacheLookup_cacheSet_self]
  simp [isCacheValid]
  omega

/-- Every entry of a cache after a `Map.set` is the written pair or one of
the pre-existing pairs. -/
theorem mem_cacheSet (c : Cache) (k : String) (e : CacheEntry)
    (p : String × CacheEntry) (hp : p ∈ cacheSet c k e) :
    p = (k, e) ∨ p ∈ c := by
  unfold cacheSet at hp
  split_ifs at hp with hk
  · rcases List.mem_map.mp hp with ⟨q, hq, hfq⟩
    by_cases hq1 : q.1 = k
    · left; rw [if_pos hq1] at hfq; exact hfq.symm
    · right; rw [if_neg hq1] at hfq; exact hfq ▸ hq
  · rcases List.mem_append.mp hp with h | h
    · right; exact h
    · left; simpa using h

/-! ### Claim theorems -/

/-- C7: the time-token validator used during DOM extraction accepts exactly
the two-part tokens whose hour component is 0–23 and minute component is
0–59; in particular it accepts `"23:59"` and `"0:00"` and rejects `"24:00"`
and `"12:60"`. -/
theorem C7_time_token_validator :
    isValidTime "23:59" = true ∧ isValidTime "0:00" = true ∧
    isValidTime "24:00" = false ∧ isValidTime "12:60" = false ∧
    ∀ s : String, isValidTime s = true ↔
      ∃ h m : Nat, timeComponents s = some (h, m) ∧ h ≤ 23 ∧ m ≤ 59 := by
  refine ⟨by decide, by decide, by decide, by decide, fun s => ?_⟩
  unfold isValidTime
  cases hc : timeComponents s with
  | none => simp
  | some hm =>
    obtain ⟨h, m⟩ := hm
    simp only [Bool.and_eq_true, decide_eq_true_eq, Option.some.injEq, Prod.mk.injEq]
    constructor
    · rintro ⟨a, b⟩
      exact ⟨h, m, ⟨rfl, rfl⟩, a, b⟩
    · rintro ⟨h', m', ⟨rfl, rfl⟩, a, b⟩
      exact ⟨a, b⟩

/-- C8: for a well-formed `HH:MM` time, `minutesAway` is non-negative: the
rollover to "tomorrow" already makes the minute difference non-negative (so
the `Math.max(0, ·)` clamp is redundant), and the Puppeteer variant's
rounded computation is non-negative as well. -/
theorem C8_minutes_away_nonneg (h m nowOfDay : Int)
    (hh0 : 0 ≤ h) (hh : h ≤ 23) (hm0 : 0 ≤ m) (hm : m ≤ 59)
    (hn0 : 0 ≤ nowOfDay) (hn : nowOfDay < 86400000) :
    0 ≤ calcMinutesFromTime h m nowOfDay ∧
    calcMinutesFromTime h m nowOfDay = calcMinutesRolled h m nowOfDay ∧
    0 ≤ calcMinutesAwayRounded h m nowOfDay := by
  have htarget : 0 ≤ (h * 60 + m) * 60000 := by positivity
  have key : 0 ≤ calcMinutesRolled h m nowOfDay := by
    unfold calcMinutesRolled
    dsimp only
    split_ifs with hlt
    · exact Int.fdiv_nonneg (by omega) (by omega)
    · exact Int.fdiv_nonneg (by omega) (by omega)
  refine ⟨?_, ?_, ?_⟩
  · unfold calcMinutesFromTime; exact le_max_left 0 _
  · unfold calcMinutesFromTime; exact max_eq_right key
  · unfold calcMinutesAwayRounded
    dsimp only
    split_ifs with hlt
    · exact le_max_left 0 _
    · exact le_max_left 0 _

/-- Witness for C8 at the concrete target `07:59` with "now" at 08:00. -/
theorem C8_minutes_away_nonneg_witness :
    0 ≤ calcMinutesFromTime 7 59 28800000 ∧
    calcMinutesFromTime 7 59 28800000 = calcMinutesRolled 7 59 28800000 ∧
    0 ≤ calcMinutesAwayRounded 7 59 28800000 :=
  C8_minutes_away_nonneg 7 59 28800000 (by decide) (by decide) (by decide)
    (by decide) (by decide) (by decide)

/-- C9: the simulation path is deterministic — in the embedding
`_simulateTrainData` is a pure function of `(origin, destination, line)` and
the wall-clock instant, so two calls at the same instant agree by
definition; its observable shape is fixed: the `minutesAway` spacing is
always the cumulative gaps `[3, 8, 15, 23, 33]` (five trains), and
`estimatedTravelTime` depends only on the origin string (invariant under the
destination, line and instant). -/
theorem C9_simulation_determinism (origin destination line : String) (now : Int)
    (destination' line' : String) (now' : Int) :
    (simulateTrainData origin destination line now).nextTrains.map
        (fun t => t.minutesAway) = [3, 8, 15, 23, 33] ∧
    (simulateTrainData origin destination line now).nextTrains.length = 5 ∧
    (simulateTrainData origin destination line now).estimatedTravelTime
      = (simulateTrainData origin destination' line' now').estimatedTravelTime := by
  refine ⟨?_, ?_, ?_⟩ <;> rfl

/-- C4 (failing input): on the extracted token stream
`["08:05", "08:05", "08:05 AM", "07:59"]` the DOM pass emits each distinct
literal time once and stays within the cap of 10, but the emitted sequence
is `["08:05", "07:59"]` — first-occurrence order, not chronologically
ascending: the code never sorts. -/
theorem C4_emission_not_sorted :
    extractUniqueTimes ["08:05", "08:05", "08:05 AM", "07:59"]
        = ["08:05", "07:59"] ∧
    (extractUniqueTimes ["08:05", "08:05", "08:05 AM", "07:59"]).Nodup ∧
    (extractUniqueTimes ["08:05", "08:05", "08:05 AM", "07:59"]).length ≤ 10 ∧
    ¬ chronoSorted (extractUniqueTimes ["08:05", "08:05", "08:05 AM", "07:59"]) := by
  decide

/-- C5 (counterexample): `_getCacheKey` lower-cases but does not trim, so a
put under `(" Ayala", "Buendia")` followed by a get under
`("Ayala", "Buendia")` does not address the same entry: the keys differ and
the lookup misses. -/
theorem C5_no_trimming_counterexample :
    getCacheKey " Ayala" "Buendia" ≠ getCacheKey "Ayala" "Buendia" ∧
    cacheGet 300
        (cacheSet [] (getCacheKey " Ayala" "Buendia")
          ⟨simulateTrainData " Ayala" "Buendia" "MRT-3" 0, 0⟩)
        (getCacheKey "Ayala" "Buendia") 0 = none := by
  constructor
  · decide
  · rfl

/-- C5 (amended): cache keys are normalized case-insensitively (both parts
lower-cased) but not trimmed: for every pair of `(origin, destination)`
inputs that differ only in letter case, a put under one pair followed by a
get under the other addresses the same cache entry. -/
theorem C5_case_insensitive_cache_keys
    (origin destination origin' destination' : String)
    (ho : jsToLower origin = jsToLower origin')
    (hd : jsToLower destination = jsToLower destination')
    (cd : Int) (hcd : 0 < cd) (r : ScheduleRecord) (c : Cache) (now : Int) :
    getCacheKey origin destination = getCacheKey origin' destination' ∧
    cacheGet cd (cacheSet c (getCacheKey origin destination) ⟨r, now⟩)
      (getCacheKey origin' destination') now = some r := by
  have hkey : getCacheKey origin destination = getCacheKey origin' destination' := by
    unfold getCacheKey
    rw [ho, hd]
  exact ⟨hkey, hkey ▸ cacheGet_cacheSet_self c _ r cd now hcd⟩

/-- Witness for the amended C5: `("AYALA", "buendia")` and
`("ayala", "BUENDIA")` address the same cache entry. -/
theorem C5_case_insensitive_cache_keys_witness :
    getCacheKey "AYALA" "buendia" = getCacheKey "ayala" "BUENDIA" ∧
    cacheGet 300
        (cacheSet [] (getCacheKey "AYALA" "buendia")
          ⟨simulateTrainData "AYALA" "buendia" "MRT-3" 0, 0⟩)
        (getCacheKey "ayala" "BUENDIA") 0
      = some (simulateTrainData "AYALA" "buendia" "MRT-3" 0) :=
  C5_case_insensitive_cache_keys "AYALA" "buendia" "ayala" "BUENDIA"
    (by decide) (by decide) 300 (by decide)
    (simulateTrainData "AYALA" "buendia" "MRT-3" 0) [] 0

/-- C6: a put followed immediately by a get for the same key returns the
identical record; once `cacheDuration` seconds have elapsed the entry is
invalid — `getCacheInfo` reports `valid = false` for it and a fresh read
misses — yet the entry is still present in the map (skipped, not
evicted). -/
theorem C6_cache_put_get_ttl (c : Cache) (k : String) (r : ScheduleRecord)
    (cd now later : Int) (useB : Bool) (br : Option Browser)
    (hcd : 0 < cd) (hlater : cd * 1000 ≤ later - now) :
    cacheGet cd (cacheSet c k ⟨r, now⟩) k now = some r ∧
    cacheGet cd (cacheSet c k ⟨r, now⟩) k later = none ∧
    (∃ e ∈ (getCacheInfo
        { cacheDuration := cd, useBrowserScraper := useB,
          cache := cacheSet c k ⟨r, now⟩, browser := br } later).entries,
      e.key = k ∧ e.valid = false) ∧
    cacheLookup (cacheSet c k ⟨r, now⟩) k = some ⟨r, now⟩ := by
  have hlook := cacheLookup_cacheSet_self c k (⟨r, now⟩ : CacheEntry)
  have hinvalid : isCacheValid cd later now = false := by
    unfold isCacheValid
    simp only [decide_eq_false_iff_not, not_lt]
    omega
  refine ⟨cacheGet_cacheSet_self c k r cd now hcd, ?_, ?_, hlook⟩
  · unfold cacheGet
    rw [hlook]
    simp [hinvalid]
  · have hlook' := hlook
    unfold cacheLookup at hlook'
    obtain ⟨p, hfind, hp2⟩ := Option.map_eq_some'.mp hlook'
    have hpk : p.1 = k := by simpa using List.find?_some hfind
    have hpmem : p ∈ cacheSet c k ⟨r, now⟩ := List.mem_of_find?_eq_some hfind
    unfold getCacheInfo
    refine ⟨_, List.mem_map_of_mem _ hpmem, hpk, ?_⟩
    simp [hp2, hinvalid]

/-- Witness for C6 with a 300-second duration: written at instant `0`,
read back at `0`, expired at `300000` ms. -/
theorem C6_cache_put_get_ttl_witness :
    cacheGet 300 (cacheSet [] "ayala_buendia"
        ⟨simulateTrainData "Ayala" "Buendia" "MRT-3" 0, 0⟩) "ayala_buendia" 0
      = some (simulateTrainData "Ayala" "Buendia" "MRT-3" 0) ∧
    cacheGet 300 (cacheSet [] "ayala_buendia"
        ⟨simulateTrainData "Ayala" "Buendia" "MRT-3" 0, 0⟩) "ayala_buendia" 300000
      = none ∧
    (∃ e ∈ (getCacheInfo
        { cacheDuration := 300, useBrowserScraper := false,
          cache := cacheSet [] "ayala_buendia"
            ⟨simulateTrainData "Ayala" "Buendia" "MRT-3" 0, 0⟩,
          browser := none } 300000).entries,
      e.key = "ayala_buendia" ∧ e.valid = false) ∧
    cacheLookup (cacheSet [] "ayala_buendia"
        ⟨simulateTrainData "Ayala" "Buendia" "MRT-3" 0, 0⟩) "ayala_buendia"
      = some ⟨simulateTrainData "Ayala" "Buendia" "MRT-3" 0, 0⟩ :=
  C6_cache_put_get_ttl [] "ayala_buendia"
    (simulateTrainData "Ayala" "Buendia" "MRT-3" 0) 300 0 300000 false none
    (by decide) (by decide)

/-- C3: with the browser toggle disabled, every cache-miss request returns
the deterministic simulated record: `simulated = true`, the caller's line,
origin and destination echoed back, and exactly 5 entries in
`nextTrains`. -/
theorem C3_disabled_toggle_returns_simulated (st : ScraperState)
    (origin destination line : String) (now nowOfDay : Int) (env : ExtractEnv)
    (hoff : st.useBrowserScraper = false)
    (hmiss : cacheGet st.cacheDuration st.cache (getCacheKey origin destination) now
      = none) :
    (scrapeTrainSchedule st origin destination line now nowOfDay env).1
        = simulateTrainData origin destination line now ∧
    (scrapeTrainSchedule st origin destination line now nowOfDay env).1.simulated
        = true ∧
    (scrapeTrainSchedule st origin destination line now nowOfDay env).1.line = line ∧
    (scrapeTrainSchedule st origin destination line now nowOfDay env).1.origin
        = origin ∧
    (scrapeTrainSchedule st origin destination line now nowOfDay env).1.destination
        = destination ∧
    (scrapeTrainSchedule st origin destination line now nowOfDay env).1.nextTrains.length
        = 5 := by
  have hmain : (scrapeTrainSchedule st origin destination line now nowOfDay env).1
      = simulateTrainData origin destination line now := by
    unfold scrapeTrainSchedule
    dsimp only
    rw [hmiss]
    unfold attemptDataExtraction
    rw [hoff]
    rfl
  refine ⟨hmain, ?_, ?_, ?_, ?_, ?_⟩ <;> rw [hmain] <;> rfl

/-- Witness for C3: the end-to-end scenario
`scrapeTrainSchedule("Ayala", "Buendia", "MRT-3")` on a fresh engine with
the toggle off. -/
theorem C3_disabled_toggle_returns_simulated_witness :
    (scrapeTrainSchedule (initialState 300 false) "Ayala" "Buendia" "MRT-3" 0 0
        ⟨Except.error (), Except.ok []⟩).1
      = simulateTrainData "Ayala" "Buendia" "MRT-3" 0 ∧
    (scrapeTrainSchedule (initialState 300 false) "Ayala" "Buendia" "MRT-3" 0 0
        ⟨Except.error (), Except.ok []⟩).1.simulated = true ∧
    (scrapeTrainSchedule (initialState 300 false) "Ayala" "Buendia" "MRT-3" 0 0
        ⟨Except.error (), Except.ok []⟩).1.line = "MRT-3" ∧
    (scrapeTrainSchedule (initialState 300 false) "Ayala" "Buendia" "MRT-3" 0 0
        ⟨Except.error (), Except.ok []⟩).1.origin = "Ayala" ∧
    (scrapeTrainSchedule (initialState 300 false) "Ayala" "Buendia" "MRT-3" 0 0
        ⟨Except.error (), Except.ok []⟩).1.destination = "Buendia" ∧
    (scrapeTrainSchedule (initialState 300 false) "Ayala" "Buendia" "MRT-3" 0 0
        ⟨Except.error (), Except.ok []⟩).1.nextTrains.length = 5 :=
  C3_disabled_toggle_returns_simulated (initialState 300 false)
    "Ayala" "Buendia" "MRT-3" 0 0 ⟨Except.error (), Except.ok []⟩ rfl rfl

/-- A live attempt whose pipeline throws (`Except.error`) or yields no token
produces `null`, whatever the launch outcome and browser state. -/
theorem attempt_none_of_pipeline_failure (st : ScraperState) (env : ExtractEnv)
    (origin destination line : String) (now nowOfDay : Int)
    (hfail : env.domTokens = Except.error () ∨ env.domTokens = Except.ok []) :
    (attemptDataExtraction st env origin destination line now nowOfDay).1 = none := by
  unfold attemptDataExtraction
  cases hb : st.useBrowserScraper with
  | false => rfl
  | true =>
    simp only [hb, Bool.not_true, Bool.false_eq_true, if_false]
    rcases h : initBrowser st env.launch with ⟨res, st'⟩
    cases res with
    | error e => simp [h]
    | ok b =>
      rcases hfail with hf | hf <;> simp [h, hf]
      rfl

/-- C2: a non-launch failure of the live attempt — a thrown
navigation/interaction/parse error or an empty extraction result — never
surfaces to the caller of `scrapeTrainSchedule`: the call returns the
simulated record instead (the embedding of `scrapeTrainSchedule` is a total
function, so nothing but a launch failure could even be a candidate for
rejection); a failing launch propagates its error to the caller of
`_initBrowser` with the browser reference left `null`, and a subsequent
acquire on the `null` reference retries the launch instead of reusing a
known-bad one. -/
theorem C2_only_launch_failure_escapes (st : ScraperState) (env : ExtractEnv)
    (origin destination line : String) (now nowOfDay : Int) (b : Browser)
    (hmiss : cacheGet st.cacheDuration st.cache (getCacheKey origin destination) now
      = none)
    (hfail : env.domTokens = Except.error () ∨ env.domTokens = Except.ok []) :
    (scrapeTrainSchedule st origin destination line now nowOfDay env).1
        = simulateTrainData origin destination line now ∧
    (st.browser = none →
      initBrowser st (Except.error ())
        = (Except.error (), { st with browser := none })) ∧
    initBrowser { st with browser := none } (Except.ok b)
      = (Except.ok b, { st with browser := some b }) := by
  refine ⟨?_, ?_, rfl⟩
  · have hattempt := attempt_none_of_pipeline_failure st env origin destination line
      now nowOfDay hfail
    unfold scrapeTrainSchedule
    dsimp only
    rw [hmiss]
    rcases h : attemptDataExtraction st env origin destination line now nowOfDay
      with ⟨res, st'⟩
    rw [h] at hattempt
    simp only at hattempt
    subst hattempt
    rfl
  · intro hb
    unfold initBrowser
    rw [hb]

/-- Witness for C2: a fresh engine with the toggle on, a failing pipeline
and a launchable browser. -/
theorem C2_only_launch_failure_escapes_witness :
    (scrapeTrainSchedule (initialState 300 true) "Ayala" "Buendia" "MRT-3" 0 0
        ⟨Except.ok ⟨0⟩, Except.error ()⟩).1
      = simulateTrainData "Ayala" "Buendia" "MRT-3" 0 ∧
    ((initialState 300 true).browser = none →
      initBrowser (initialState 300 true) (Except.error ())
        = (Except.error (), { initialState 300 true with browser := none })) ∧
    initBrowser { initialState 300 true with browser := none } (Except.ok ⟨1⟩)
      = (Except.ok ⟨1⟩, { initialState 300 true with browser := some ⟨1⟩ }) :=
  C2_only_launch_failure_escapes (initialState 300 true)
    ⟨Except.ok ⟨0⟩, Except.error ()⟩ "Ayala" "Buendia" "MRT-3" 0 0 ⟨1⟩
    rfl (Or.inl rfl)

/-- The simulated record's travel-time estimate is non-negative
(`3 * (hash-derived station count)`). -/
theorem simulate_ett_nonneg (origin destination line : String) (now : Int) :
    0 ≤ (simulateTrainData origin destination line now).estimatedTravelTime := by
  unfold simulateTrainData
  positivity

/-- A record emitted by the DOM pass carries
`estimatedTravelTime = _estimateTravelTime(origin, destination)`. -/
theorem extract_ett (tokens : List RawToken) (origin destination line : String)
    (now nowOfDay : Int) (r : ScheduleRecord)
    (h : extractTrainDataFromPage tokens origin destination line now nowOfDay
      = some r) :
    r.estimatedTravelTime = estimateTravelTime origin destination := by
  unfold extractTrainDataFromPage at h
  dsimp only at h
  split_ifs at h
  cases Option.some.inj h
  rfl

/-- Any record a live attempt returns has a non-negative travel-time
estimate (`Math.max(5, ·)` bounds it below by 5). -/
theorem attempt_some_ett_nonneg (st : ScraperState) (env : ExtractEnv)
    (origin destination line : String) (now nowOfDay : Int) (r : ScheduleRecord)
    (h : (attemptDataExtraction st env origin destination line now nowOfDay).1
      = some r) :
    0 ≤ r.estimatedTravelTime := by
  unfold attemptDataExtraction at h
  by_cases hb : st.useBrowserScraper
  · simp only [hb, Bool.not_true, Bool.false_eq_true, if_false] at h
    rcases hinit : initBrowser st env.launch with ⟨res, st'⟩
    rw [hinit] at h
    cases res with
    | error e => simp at h
    | ok b =>
      cases ht : env.domTokens with
      | error e => rw [ht] at h; simp at h
      | ok tokens =>
        rw [ht] at h
        simp only at h
        rw [extract_ett tokens origin destination line now nowOfDay r h]
        unfold estimateTravelTime
        have : (0 : Int) ≤ 5 := by norm_num
        exact le_trans this (le_max_left 5 _)
  · simp only [hb] at h
    simp at h

/-- The session acquire step `_initBrowser` never touches the cache. -/
theorem initBrowser_cache (st : ScraperState) (launch : Except Unit Browser) :
    (initBrowser st launch).2.cache = st.cache := by
  unfold initBrowser
  cases st.browser with
  | some b => rfl
  | none => cases launch <;> rfl

/-- A live attempt never touches the cache. -/
theorem attempt_cache_eq (st : ScraperState) (env : ExtractEnv)
    (origin destination line : String) (now nowOfDay : Int) :
    (attemptDataExtraction st env origin destination line now nowOfDay).2.cache
      = st.cache := by
  unfold attemptDataExtraction
  by_cases hb : st.useBrowserScraper
  · simp only [hb, Bool.not_true, Bool.false_eq_true, if_false]
    rcases hinit : initBrowser st env.launch with ⟨res, st'⟩
    have hc : st'.cache = st.cache := by
      have := initBrowser_cache st env.launch
      rw [hinit] at this
      exact this
    cases res with
    | error e => simpa using hc
    | ok b => cases env.domTokens <;> simpa using hc
  · simp only [hb]
    simp

/-- A cache hit returns the `data` of an entry that is in the map. -/
theorem cacheGet_some_mem (cd : Int) (c : Cache) (k : String) (now : Int)
    (r : ScheduleRecord) (h : cacheGet cd c k now = some r) :
    ∃ p ∈ c, p.2.data = r := by
  unfold cacheGet at h
  cases hl : cacheLookup c k with
  | none => rw [hl] at h; simp at h
  | some e =>
    rw [hl] at h
    dsimp only at h
    split_ifs at h
    unfold cacheLookup at hl
    obtain ⟨p, hfind, hp2⟩ := Option.map_eq_some'.mp hl
    refine ⟨p, List.mem_of_find?_eq_some hfind, ?_⟩
    rw [hp2]
    exact Option.some.inj h

/-- C1: `scrapeTrainSchedule` always resolves to a `ScheduleRecord` — in the
embedding it is a total function into `ScheduleRecord × ScraperState`, so
`nextTrains` is a (non-null) list by construction — whose
`estimatedTravelTime` is a non-negative integer whenever every record
already in the cache satisfies that bound (which the engine's own writes
maintain, as the second conjunct shows); and when the live attempt yields
nothing on a cache miss, the returned record is exactly the deterministic
simulated record. -/
theorem C1_total_availability (st : ScraperState) (env : ExtractEnv)
    (origin destination line : String) (now nowOfDay : Int)
    (hwf : ∀ p ∈ st.cache, 0 ≤ p.2.data.estimatedTravelTime) :
    0 ≤ (scrapeTrainSchedule st origin destination line now
          nowOfDay env).1.estimatedTravelTime ∧
    (∀ p ∈ (scrapeTrainSchedule st origin destination line now nowOfDay env).2.cache,
      0 ≤ p.2.data.estimatedTravelTime) ∧
    ((attemptDataExtraction st env origin destination line now nowOfDay).1 = none →
      cacheGet st.cacheDuration st.cache (getCacheKey origin destination) now
        = none →
      (scrapeTrainSchedule st origin destination line now nowOfDay env).1
        = simulateTrainData origin destination line now) := by
  unfold scrapeTrainSchedule
  dsimp only
  cases hg : cacheGet st.cacheDuration st.cache (getCacheKey origin destination) now with
  | some data =>
    obtain ⟨p, hpmem, hpd⟩ := cacheGet_some_mem _ _ _ _ _ hg
    refine ⟨?_, hwf, ?_⟩
    · have := hwf p hpmem
      rw [hpd] at this
      exact this
    · intro _ hnone
      exact absurd hnone (by simp)
  | none =>
    rcases ha : attemptDataExtraction st env origin destination line now nowOfDay
      with ⟨res, st'⟩
    have hcache : st'.cache = st.cache := by
      have := attempt_cache_eq st env origin destination line now nowOfDay
      rw [ha] at this
      exact this
    cases res with
    | some r =>
      have hett : 0 ≤ r.estimatedTravelTime :=
        attempt_some_ett_nonneg st env origin destination line now nowOfDay r
          (by rw [ha])
      refine ⟨hett, ?_, ?_⟩
      · intro p hp
        rcases mem_cacheSet _ _ _ _ hp with h1 | h1
        · rw [h1]
          exact hett
        · rw [hcache] at h1
          exact hwf p h1
      · intro hnone _
        exact absurd hnone (by simp)
    | none =>
      refine ⟨simulate_ett_nonneg origin destination line now, ?_, fun _ _ => rfl⟩
      intro p hp
      rcases mem_cacheSet _ _ _ _ hp with h1 | h1
      · rw [h1]
        exact simulate_ett_nonneg origin destination line now
      · rw [hcache] at h1
        exact hwf p h1

/-- Witness for C1 on a fresh engine (empty cache) with the toggle off. -/
theorem C1_total_availability_witness :
    0 ≤ (scrapeTrainSchedule (initialState 300 false) "Ayala" "Buendia" "MRT-3" 0 0
          ⟨Except.error (), Except.ok []⟩).1.estimatedTravelTime ∧
    (∀ p ∈ (scrapeTrainSchedule (initialState 300 false) "Ayala" "Buendia" "MRT-3" 0 0
          ⟨Except.error (), Except.ok []⟩).2.cache,
      0 ≤ p.2.data.estimatedTravelTime) ∧
    ((attemptDataExtraction (initialState 300 false) ⟨Except.error (), Except.ok []⟩
          "Ayala" "Buendia" "MRT-3" 0 0).1 = none →
      cacheGet (initialState 300 false).cacheDuration (initialState 300 false).cache
          (getCacheKey "Ayala" "Buendia") 0 = none →
      (scrapeTrainSchedule (initialState 300 false) "Ayala" "Buendia" "MRT-3" 0 0
          ⟨Except.error (), Except.ok []⟩).1
        = simulateTrainData "Ayala" "Buendia" "MRT-3" 0) :=
  C1_total_availability (initialState 300 false) ⟨Except.error (), Except.ok []⟩
    "Ayala" "Buendia" "MRT-3" 0 0 (by simp [initialState])

/-- C10: after `cleanup()` the cache is empty (every subsequent request for
any route is a cache miss, however the cache was populated before) and the
browser reference is `null`; `cleanup` is idempotent, and the post-cleanup
state is exactly the fresh engine state for the same configuration. -/
theorem C10_cleanup_resets (st : ScraperState) (origin destination : String)
    (now : Int) :
    (cleanup st).cache = [] ∧
    (cleanup st).browser = none ∧
    cleanup (cleanup st) = cleanup st ∧
    cacheGet (cleanup st).cacheDuration (cleanup st).cache
      (getCacheKey origin destination) now = none ∧
    cleanup st = initialState st.cacheDuration st.useBrowserScraper :=
  ⟨rfl, rfl, rfl, rfl, rfl⟩

end RushScraper
